import Mathlib

/-!
Verification of the retry/backoff request helper `call_deepseek_chat`
(src/src/Model/call_deepseek_chat.py) as a shallow embedding.

The Python function performs, per call:
  1. credential resolution (`api_key = api_key or os.getenv("DEEPSEEK_API_KEY")`,
     then `if not api_key: raise ValueError(...)`);
  2. payload construction (a dict with exactly the keys
     model, messages, temperature, max_tokens);
  3. a loop `for attempt in range(1, max_retries + 1)` whose body is one
     big `try`:
       - `requests.post(...)` (may raise a transport exception);
       - if the status code is in (429, 500, 502, 503, 504): sleep
         `min(2 ** (attempt - 1), 8)` and `continue` (no exception, so
         `last_err` is NOT updated here);
       - `resp.raise_for_status()` raises `requests.HTTPError` for any
         4xx/5xx status (400 <= code < 600);
       - `resp.json()`; on failure a `ValueError` built from
         `resp.text[:200]` is raised; on success the decoded value is
         returned;
     and an `except Exception as e` clause that catches EVERY exception
     raised inside the try (transport errors, the `HTTPError` from
     `raise_for_status`, and the decode `ValueError`), sets
     `last_err = e`, and, when `attempt < max_retries`, sleeps
     `min(2 ** (attempt - 1), 8)` and continues; on the final attempt it
     re-raises;
  4. after the loop: `raise RuntimeError("Request failed") from last_err`.

The embedding makes network I/O explicit: the transport is an oracle
mapping the (1-based) attempt index to the outcome of `requests.post`
— either an HTTP response or a raised transport exception.  An HTTP
response carries its status code, its raw text, and the result of
`resp.json()` on it (`resp.json()` is a function of the response object,
so the embedding carries that result as response data).  Sleeps and
transport invocations are recorded in the returned trace.
-/

/-- JSON values, as produced by the JSON encode/decode facility the
Python code delegates to. -/
inductive JsonVal where
  | str (s : String)
  | num (q : Rat)
  | bool (b : Bool)
  | null
  | arr (xs : List JsonVal)
  | obj (fields : List (String × JsonVal))

/-- One OpenAI-style chat message: a role and a content string
(Python: `{"role": ..., "content": ...}`). -/
structure ChatMessage where
  role : String
  content : String
deriving DecidableEq

/-- JSON encoding of one chat message, exactly the two documented keys
in order. -/
def msgToJson (m : ChatMessage) : JsonVal :=
  JsonVal.obj [("role", JsonVal.str m.role), ("content", JsonVal.str m.content)]

/-- Inverse of `msgToJson`: recover a chat message from its JSON object. -/
def msgOfJson : JsonVal → Option ChatMessage
  | JsonVal.obj [(k1, JsonVal.str r), (k2, JsonVal.str c)] =>
      if k1 = "role" ∧ k2 = "content" then some ⟨r, c⟩ else none
  | _ => none

/-- Decode a JSON array of chat messages elementwise, failing if any
element is not a well-formed message object. -/
def decodeMsgList : List JsonVal → Option (List ChatMessage)
  | [] => some []
  | j :: js =>
      match msgOfJson j, decodeMsgList js with
      | some m, some ms => some (m :: ms)
      | _, _ => none

/-- The outbound request body built by the Python code (lines 54-64):
a dict with exactly the keys model, messages, temperature, max_tokens,
in that insertion order, the messages passed through verbatim.
Modelled as an association list preserving dict insertion order. -/
def buildPayload (model : String) (messages : List ChatMessage)
    (temperature : Rat) (max_tokens : Nat) : List (String × JsonVal) :=
  [("model", JsonVal.str model),
   ("messages", JsonVal.arr (messages.map msgToJson)),
   ("temperature", JsonVal.num temperature),
   ("max_tokens", JsonVal.num max_tokens)]

/-- An HTTP response as seen by the Python code: `resp.status_code`,
`resp.text`, and the result of `resp.json()` (`none` when the body is
not valid JSON, in which case `resp.json()` raises). -/
structure HttpResponse where
  status_code : Nat
  text : String
  jsonResult : Option JsonVal

/-- Outcome of one `requests.post` call: either an HTTP response, or a
raised transport-level exception (connection refused, timeout, DNS
failure, ...), identified by its message. -/
inductive TransportOutcome where
  | response (r : HttpResponse)
  | netError (e : String)

/-- Classified errors the call can surface, mirroring the exceptions of
the Python code: the missing-credential `ValueError`, the `HTTPError`
from `raise_for_status` (carrying status code and body), the non-JSON
`ValueError` (carrying its message), a propagated transport exception,
and the final `RuntimeError("Request failed") from last_err`. -/
inductive CallError where
  | configuration (msg : String)
  | httpStatus (status : Nat) (body : String)
  | decodeError (msg : String)
  | transport (e : String)
  | exhausted (last : Option CallError)

/-- Python truthiness of an optional string: `None` and `""` are falsy. -/
def truthy : Option String → Bool
  | none => false
  | some s => !(s == "")

/-- Python `a or b` on optional strings: `b` when `a` is falsy. -/
def pyOr (a b : Option String) : Option String :=
  if truthy a then a else b

/-- The missing-credential error message raised before any network
attempt. -/
def missingKeyMsg : String :=
  "Missing api_key. Pass api_key=... or set DEEPSEEK_API_KEY env var."

/-- Backoff duration before the next attempt:
`min(2 ** (attempt - 1), 8)` time units. -/
def backoff (attempt : Nat) : Nat :=
  min (2 ^ (attempt - 1)) 8

/-- Statuses the code treats as retriable:
`resp.status_code in (429, 500, 502, 503, 504)`. -/
def retriableStatus (s : Nat) : Bool :=
  s == 429 || s == 500 || s == 502 || s == 503 || s == 504

/-- Result of evaluating the body of the `try` block on one attempt:
the retriable-status branch (sleep and continue, no exception raised,
`last_err` untouched), a successful decoded return, or an exception
that the `except Exception` clause catches. -/
inductive AttemptResult where
  | retryStatus
  | success (j : JsonVal)
  | exc (e : CallError)

/-- The body of the `try` block for one attempt, given the outcome of
`requests.post`: retriable-status check first, then
`resp.raise_for_status()` (raises for 400 <= status < 600), then
`resp.json()` with the non-JSON `ValueError` built from
`resp.text[:200]`. -/
def tryAttempt (o : TransportOutcome) : AttemptResult :=
  match o with
  | TransportOutcome.netError e => AttemptResult.exc (CallError.transport e)
  | TransportOutcome.response r =>
      if retriableStatus r.status_code then
        AttemptResult.retryStatus
      else if 400 ≤ r.status_code ∧ r.status_code < 600 then
        AttemptResult.exc (CallError.httpStatus r.status_code r.text)
      else
        match r.jsonResult with
        | some j => AttemptResult.success j
        | none =>
            AttemptResult.exc
              (CallError.decodeError ("Endpoint returned non-JSON: " ++ r.text.take 200))

/-- Observable trace of one call: how many times the transport was
invoked, the recorded sleep durations in order, and the final outcome. -/
structure CallResult where
  invocations : Nat
  sleeps : List Nat
  outcome : Except CallError JsonVal

/-- The retry loop `for attempt in range(1, max_retries + 1)`.
`rem + 1` is the number of attempts still to run including the current
one, and `attempt` is the current 1-based attempt index, so the Python
guard `attempt < max_retries` in the except clause is exactly
`0 < rem`.  `lastErr` is the `last_err` variable; it is updated only in
the except clause.  When the attempt budget is exhausted the loop falls
through to `raise RuntimeError("Request failed") from last_err`. -/
def callLoop (transport : Nat → TransportOutcome) :
    Nat → Nat → Option CallError → CallResult
  | 0, _, lastErr => ⟨0, [], Except.error (CallError.exhausted lastErr)⟩
  | rem + 1, attempt, lastErr =>
      match tryAttempt (transport attempt) with
      | AttemptResult.success j => ⟨1, [], Except.ok j⟩
      | AttemptResult.retryStatus =>
          let t := callLoop transport rem (attempt + 1) lastErr
          ⟨t.invocations + 1, backoff attempt :: t.sleeps, t.outcome⟩
      | AttemptResult.exc e =>
          if 0 < rem then
            let t := callLoop transport rem (attempt + 1) (some e)
            ⟨t.invocations + 1, backoff attempt :: t.sleeps, t.outcome⟩
          else
            ⟨1, [], Except.error e⟩

/-- The whole call: credential resolution (parameter first, else the
environment variable; empty strings are falsy), the missing-credential
check before any network activity, then the retry loop starting at
attempt 1 with `last_err = None`. -/
def call_deepseek_chat (api_key env_DEEPSEEK_API_KEY : Option String)
    (transport : Nat → TransportOutcome) (max_retries : Nat) : CallResult :=
  let key := pyOr api_key env_DEEPSEEK_API_KEY
  if truthy key then
    callLoop transport max_retries 1 none
  else
    ⟨0, [], Except.error (CallError.configuration missingKeyMsg)⟩

/-! Helper lemmas shared by the claim theorems. -/

lemma truthy_some_of_ne (k : String) (hk : k ≠ "") : truthy (some k) = true := by
  simp [truthy, hk]

lemma pyOr_some_of_ne (k : String) (hk : k ≠ "") (b : Option String) :
    pyOr (some k) b = some k := by
  simp [pyOr, truthy_some_of_ne k hk]

lemma call_with_key (k : String) (hk : k ≠ "") (env : Option String)
    (transport : Nat → TransportOutcome) (mr : Nat) :
    call_deepseek_chat (some k) env transport mr = callLoop transport mr 1 none := by
  simp [call_deepseek_chat, pyOr_some_of_ne k hk, truthy_some_of_ne k hk]

lemma callLoop_all_retry (transport : Nat → TransportOutcome) (rem : Nat) :
    ∀ (attempt : Nat) (lastErr : Option CallError),
      (∀ a, attempt ≤ a → a < attempt + rem →
        ∃ r, transport a = TransportOutcome.response r ∧ retriableStatus r.status_code = true) →
      callLoop transport rem attempt lastErr =
        ⟨rem, (List.range' attempt rem).map backoff,
          Except.error (CallError.exhausted lastErr)⟩ := by
  induction rem with
  | zero =>
      intro attempt lastErr _
      simp [callLoop]
  | succ n ih =>
      intro attempt lastErr h
      obtain ⟨r, hr, hstat⟩ := h attempt le_rfl (by omega)
      rw [callLoop, hr]
      simp only [tryAttempt, hstat, if_true]
      rw [ih (attempt + 1) lastErr (fun a h1 h2 => h a (by omega) (by omega))]
      simp [List.range'_succ]

lemma callLoop_retry_then_success (transport : Nat → TransportOutcome)
    (j : JsonVal) (n : Nat) :
    ∀ (attempt rem : Nat) (lastErr : Option CallError),
      n < rem →
      (∀ a, attempt ≤ a → a < attempt + n →
        ∃ r, transport a = TransportOutcome.response r ∧ r.status_code = 429) →
      (∃ r, transport (attempt + n) = TransportOutcome.response r ∧
        r.status_code = 200 ∧ r.jsonResult = some j) →
      callLoop transport rem attempt lastErr =
        ⟨n + 1, (List.range' attempt n).map backoff, Except.ok j⟩ := by
  induction n with
  | zero =>
      intro attempt rem lastErr hrem _ hsucc
      obtain ⟨r, hr, hs, hj⟩ := hsucc
      obtain ⟨q, rfl⟩ : ∃ q, rem = q + 1 := ⟨rem - 1, by omega⟩
      rw [Nat.add_zero] at hr
      rw [callLoop, hr]
      simp [tryAttempt, hs, hj, retriableStatus]
  | succ m ih =>
      intro attempt rem lastErr hrem hpre hsucc
      obtain ⟨r, hr, hs⟩ := hpre attempt le_rfl (by omega)
      obtain ⟨q, rfl⟩ : ∃ q, rem = q + 1 := ⟨rem - 1, by omega⟩
      have hsucc1 : ∃ r2, transport (attempt + 1 + m) = TransportOutcome.response r2 ∧
          r2.status_code = 200 ∧ r2.jsonResult = some j := by
        have heq : attempt + 1 + m = attempt + (m + 1) := by omega
        rw [heq]
        exact hsucc
      rw [callLoop, hr]
      simp only [tryAttempt, hs, retriableStatus]
      norm_num
      rw [ih (attempt + 1) q lastErr (by omega)
        (fun a h1 h2 => hpre a (by omega) (by omega)) hsucc1]
      simp [List.range'_succ]

lemma msgOfJson_msgToJson (m : ChatMessage) : msgOfJson (msgToJson m) = some m := by
  simp [msgToJson, msgOfJson]

lemma decodeMsgList_map (ms : List ChatMessage) :
    decodeMsgList (ms.map msgToJson) = some ms := by
  induction ms with
  | nil => rfl
  | cons m ms ih => simp [decodeMsgList, msgOfJson_msgToJson, ih]

/-! Claim theorems. -/

set_option maxRecDepth 8000 in
/-- C1: the claim states that a transport always returning status 401
makes the call fail with the status error after exactly 1 transport
invocation, never retried.  The code instead catches the
`raise_for_status` error in its `except Exception` clause and retries:
with `max_retries = 3` the transport is invoked 3 times, with backoff
sleeps 1 and 2 between attempts, before the status error (still
carrying status code and body) is finally re-raised on the last
attempt.  This theorem evaluates the code at that failing input. -/
theorem http_status_401_is_retried_not_terminal :
    call_deepseek_chat (some ("k")) none
      (fun _ => TransportOutcome.response ⟨401, ("unauthorized"), none⟩) 3 =
      ⟨3, [1, 2], Except.error (CallError.httpStatus 401 ("unauthorized"))⟩ := rfl

set_option maxRecDepth 8000 in
/-- C2: the claim states that a success status with a non-JSON body
fails terminally with the decode error on that same attempt, never
retried.  The code instead catches the decode `ValueError` in its
`except Exception` clause and retries: with `max_retries = 3` and a
transport always returning status 200 with unparsable body
`not valid json`, the transport is invoked 3 times with sleeps 1 and 2
before the decode error — whose message does contain the first 200
characters of the raw body — is re-raised on the last attempt.  This
theorem evaluates the code at that failing input. -/
theorem decode_failure_is_retried_not_terminal :
    call_deepseek_chat (some ("k")) none
      (fun _ => TransportOutcome.response ⟨200, ("not valid json"), none⟩) 3 =
      ⟨3, [1, 2],
        Except.error
          (CallError.decodeError ("Endpoint returned non-JSON: not valid json"))⟩ := rfl

/-- C3: when every attempt yields a response whose status is in
{429, 500, 502, 503, 504}, each attempt — the final one included —
sleeps `min(2 ^ (attempt - 1), 8)` and continues, and after the loop
the call fails with the generic exhausted-retries error wrapping the
last observed transport error, which is `none` here since no transport
error occurred. -/
theorem retriable_status_backoff_and_exhaustion
    (mr : Nat) (k : String) (hk : k ≠ "") (env : Option String)
    (transport : Nat → TransportOutcome)
    (h : ∀ a, 1 ≤ a → a ≤ mr →
      ∃ r, transport a = TransportOutcome.response r ∧
        retriableStatus r.status_code = true) :
    call_deepseek_chat (some k) env transport mr =
      ⟨mr, (List.range' 1 mr).map backoff,
        Except.error (CallError.exhausted none)⟩ := by
  rw [call_with_key k hk env transport mr]
  exact callLoop_all_retry transport mr 1 none (fun a h1 h2 => h a h1 (by omega))

/-- Witness for C3 at `max_retries = 3` and a transport always
returning status 500. -/
theorem retriable_status_backoff_and_exhaustion_inst :
    call_deepseek_chat (some ("k")) none
      (fun _ => TransportOutcome.response ⟨500, ("busy"), none⟩) 3 =
      ⟨3, [1, 2, 4], Except.error (CallError.exhausted none)⟩ :=
  retriable_status_backoff_and_exhaustion 3 "k" (by decide) none
    (fun _ => TransportOutcome.response ⟨500, ("busy"), none⟩)
    (fun a _ _ => ⟨⟨500, ("busy"), none⟩, rfl, rfl⟩)

/-- C4: with status 429 on the first `N - 1` attempts and a success
status 200 with decodable JSON body on attempt `N ≤ max_retries`, the
call returns the decoded body, the transport is invoked exactly `N`
times, and the recorded sleeps are `min(2 ^ (attempt - 1), 8)` for
attempts `1, ..., N - 1`, i.e. 1, 2, 4, ... capped at 8, of length
`N - 1`. -/
theorem rate_limit_then_success_trace
    (mr N : Nat) (hN : 1 ≤ N) (hmr : N ≤ mr)
    (k : String) (hk : k ≠ "") (env : Option String)
    (transport : Nat → TransportOutcome) (j : JsonVal)
    (hpre : ∀ a, 1 ≤ a → a < N →
      ∃ r, transport a = TransportOutcome.response r ∧ r.status_code = 429)
    (hsucc : ∃ r, transport N = TransportOutcome.response r ∧
      r.status_code = 200 ∧ r.jsonResult = some j) :
    call_deepseek_chat (some k) env transport mr =
      ⟨N, (List.range' 1 (N - 1)).map backoff, Except.ok j⟩ := by
  rw [call_with_key k hk env transport mr]
  have hstep := callLoop_retry_then_success transport j (N - 1) 1 mr none (by omega)
    (fun a h1 h2 => hpre a h1 (by omega))
    (by
      have h1N : 1 + (N - 1) = N := by omega
      rw [h1N]
      exact hsucc)
  have hNN : N - 1 + 1 = N := by omega
  rw [hNN] at hstep
  exact hstep

/-- Witness for C4 at `N = 3 = max_retries`: two 429 responses then a
200 with a decodable body. -/
theorem rate_limit_then_success_trace_inst :
    call_deepseek_chat (some ("k")) none
      (fun a => if a < 3 then TransportOutcome.response ⟨429, ("slow down"), none⟩
        else TransportOutcome.response ⟨200, ("ok"), some (JsonVal.str ("ok"))⟩) 3 =
      ⟨3, [1, 2], Except.ok (JsonVal.str ("ok"))⟩ :=
  rate_limit_then_success_trace 3 3 (by decide) (by decide) "k" (by decide) none
    (fun a => if a < 3 then TransportOutcome.response ⟨429, ("slow down"), none⟩
      else TransportOutcome.response ⟨200, ("ok"), some (JsonVal.str ("ok"))⟩)
    (JsonVal.str ("ok"))
    (fun a _ h2 => ⟨⟨429, ("slow down"), none⟩, by simp [h2], rfl⟩)
    ⟨⟨200, ("ok"), some (JsonVal.str ("ok"))⟩, by simp, rfl, rfl⟩

/-- C5: when neither the explicit credential parameter nor the
environment variable is set, the call fails with the
missing-credential configuration error and the transport is invoked
zero times. -/
theorem missing_credential_zero_invocations
    (transport : Nat → TransportOutcome) (mr : Nat) :
    call_deepseek_chat none none transport mr =
      ⟨0, [], Except.error (CallError.configuration missingKeyMsg)⟩ := rfl

set_option maxRecDepth 8000 in
/-- C6: with a transport raising a connection error on every attempt
and `max_retries = 3`, the transport is invoked exactly 3 times, the
call sleeps between consecutive attempts (durations 1 and 2) but not
after the last, and the final surfaced error is the transport error of
the final attempt. -/
theorem transport_error_three_attempts
    (err : Nat → String) (k : String) (hk : k ≠ "") (env : Option String) :
    call_deepseek_chat (some k) env (fun a => TransportOutcome.netError (err a)) 3 =
      ⟨3, [1, 2], Except.error (CallError.transport (err 3))⟩ := by
  rw [call_with_key k hk env (fun a => TransportOutcome.netError (err a)) 3]
  rfl

/-- Witness for C6 with a concrete connection-error message. -/
theorem transport_error_three_attempts_inst :
    call_deepseek_chat (some ("k")) none
      (fun _ => TransportOutcome.netError ("connection refused")) 3 =
      ⟨3, [1, 2], Except.error (CallError.transport ("connection refused"))⟩ :=
  transport_error_three_attempts (fun _ => "connection refused") "k" (by decide) none

/-- C7: the outbound request body has exactly the four fields model,
messages, temperature, max_tokens, its messages field is the input
sequence encoded verbatim, and decoding that field recovers the input
sequence exactly — order, roles and content preserved. -/
theorem payload_fields_and_messages_roundtrip
    (model : String) (messages : List ChatMessage)
    (temperature : Rat) (max_tokens : Nat) :
    (buildPayload model messages temperature max_tokens).map Prod.fst =
      ["model", "messages", "temperature", "max_tokens"] ∧
    List.lookup ("messages") (buildPayload model messages temperature max_tokens) =
      some (JsonVal.arr (messages.map msgToJson)) ∧
    decodeMsgList (messages.map msgToJson) = some messages :=
  ⟨rfl, rfl, decodeMsgList_map messages⟩

/-- C8: an explicitly passed empty-string credential is falsy, so the
call behaves exactly as if no parameter had been passed (falling back
to the environment variable), and when the environment variable is
also unset or empty the call fails with the missing-credential error
after zero transport invocations. -/
theorem empty_api_key_param_falls_back_to_env
    (env : Option String) (transport : Nat → TransportOutcome) (mr : Nat)
    (henv : env = none ∨ env = some ("")) :
    (∀ e : Option String,
      call_deepseek_chat (some ("")) e transport mr =
        call_deepseek_chat none e transport mr) ∧
    call_deepseek_chat (some ("")) env transport mr =
      ⟨0, [], Except.error (CallError.configuration missingKeyMsg)⟩ := by
  refine ⟨fun e => rfl, ?_⟩
  rcases henv with h | h <;> subst h <;> rfl

/-- Witness for C8 with the environment variable unset. -/
theorem empty_api_key_param_falls_back_to_env_inst :
    (∀ e : Option String,
      call_deepseek_chat (some ("")) e
        (fun _ => TransportOutcome.response ⟨200, ("ok"), some (JsonVal.null)⟩) 3 =
        call_deepseek_chat none e
          (fun _ => TransportOutcome.response ⟨200, ("ok"), some (JsonVal.null)⟩) 3) ∧
    call_deepseek_chat (some ("")) none
      (fun _ => TransportOutcome.response ⟨200, ("ok"), some (JsonVal.null)⟩) 3 =
      ⟨0, [], Except.error (CallError.configuration missingKeyMsg)⟩ :=
  empty_api_key_param_falls_back_to_env none
    (fun _ => TransportOutcome.response ⟨200, ("ok"), some (JsonVal.null)⟩) 3
    (Or.inl rfl)

/-- C9: when every attempt yields a retriable status, the call records
exactly `max_retries` backoff sleeps — one per attempt, including one
after the final attempt even though no further attempt follows — and
then fails with the generic exhausted-retries error carrying no
underlying transport error. -/
theorem all_retriable_sleeps_max_retries_times
    (mr : Nat) (k : String) (hk : k ≠ "") (env : Option String)
    (transport : Nat → TransportOutcome)
    (h : ∀ a, 1 ≤ a → a ≤ mr →
      ∃ r, transport a = TransportOutcome.response r ∧
        retriableStatus r.status_code = true) :
    (call_deepseek_chat (some k) env transport mr).invocations = mr ∧
    (call_deepseek_chat (some k) env transport mr).sleeps.length = mr ∧
    (call_deepseek_chat (some k) env transport mr).outcome =
      Except.error (CallError.exhausted none) := by
  rw [call_with_key k hk env transport mr,
    callLoop_all_retry transport mr 1 none (fun a h1 h2 => h a h1 (by omega))]
  simp

/-- Witness for C9 at `max_retries = 4` and a transport always
returning status 503: four sleeps, the last after the final attempt. -/
theorem all_retriable_sleeps_max_retries_times_inst :
    (call_deepseek_chat (some ("k")) none
      (fun _ => TransportOutcome.response ⟨503, (""), none⟩) 4).invocations = 4 ∧
    (call_deepseek_chat (some ("k")) none
      (fun _ => TransportOutcome.response ⟨503, (""), none⟩) 4).sleeps.length = 4 ∧
    (call_deepseek_chat (some ("k")) none
      (fun _ => TransportOutcome.response ⟨503, (""), none⟩) 4).outcome =
      Except.error (CallError.exhausted none) :=
  all_retriable_sleeps_max_retries_times 4 "k" (by decide) none
    (fun _ => TransportOutcome.response ⟨503, (""), none⟩)
    (fun a _ _ => ⟨⟨503, (""), none⟩, rfl, rfl⟩)

/-- C10: with `max_retries = 0` (below the documented precondition) and
a non-empty credential, the attempt loop body never runs: the
transport is invoked zero times, no sleep is recorded, and the call
fails with the generic exhausted-retries error carrying no underlying
cause. -/
theorem zero_max_retries_no_invocations
    (k : String) (hk : k ≠ "") (env : Option String)
    (transport : Nat → TransportOutcome) :
    call_deepseek_chat (some k) env transport 0 =
      ⟨0, [], Except.error (CallError.exhausted none)⟩ := by
  rw [call_with_key k hk env transport 0]
  rfl

/-- Witness for C10 with a concrete credential and transport. -/
theorem zero_max_retries_no_invocations_inst :
    call_deepseek_chat (some ("sk")) none
      (fun _ => TransportOutcome.response ⟨200, ("ok"), some (JsonVal.null)⟩) 0 =
      ⟨0, [], Except.error (CallError.exhausted none)⟩ :=
  zero_max_retries_no_invocations "sk" (by decide) none
    (fun _ => TransportOutcome.response ⟨200, ("ok"), some (JsonVal.null)⟩)
